import Mathlib

/-!
# Verification of the ZOOM-SE session emotion-aggregation engine

This file gives a shallow embedding, in Lean 4, of the emotion-aggregation
and engagement-scoring logic of the ZOOM-SE repository, and proves (or
refutes) the specification claims about it.

Two layers are embedded:

* `Frontend` — the logic that actually lives in the repository's source
  under `src/frontend` (chiefly `Dashboard.jsx`'s `handleEmotionUpdate`
  and `fetchSessionStats`, and `EmotionStats.jsx`'s rendering of the
  engagement score).  These definitions are translated line by line from
  the JavaScript source and are the authority for the claims that cite it.
* `Engine` — the backend session-aggregation engine (validator, aggregator,
  alert evaluator, session facade).  Its code is not part of the repository
  snapshot (only its frontend callers are), so those components are
  modelled from the specification's §4, as flagged on each definition.
-/

/-- The closed emotion label set
{happy, sad, angry, surprise, fear, disgust, neutral}. -/
inductive EmotionLabel where
  | happy | sad | angry | surprise | fear | disgust | neutral
deriving DecidableEq, Repr

namespace Frontend

/-- An emotion update delivered to the dashboard over the WebSocket:
`{participantId, emotion, confidence, timestamp}` (the shape posted by the
backend and consumed by `handleEmotionUpdate` in `Dashboard.jsx`). -/
structure EmotionData where
  participantId : String
  emotion : EmotionLabel
  confidence : ℚ
  timestamp : ℚ
deriving DecidableEq, Repr

/-- The entry stored by `handleEmotionUpdate` both in `participantEmotions`
and in the timeline: `{ ...data, timestamp: new Date() }` — the event's own
fields with its `timestamp` field replaced by the local arrival time. -/
structure PartEntry where
  participantId : String
  emotion : EmotionLabel
  confidence : ℚ
  timestamp : ℚ
deriving DecidableEq, Repr

/-- `{ ...data, timestamp: now }` from `Dashboard.jsx:271-274` — the stored
entry keeps the event's fields but overwrites `timestamp` with the arrival
time `new Date()`. -/
def mkEntry (data : EmotionData) (now : ℚ) : PartEntry :=
  { participantId := data.participantId
    emotion := data.emotion
    confidence := data.confidence
    timestamp := now }

/-- A JavaScript object used as a map: insertion-ordered key/value pairs
with unique keys. -/
abbrev JsObject (α : Type) := List (String × α)

/-- `{ ...prev, [k]: v }`: if `k` is already a key its value is replaced in
place (key order preserved); otherwise the pair is appended at the end.
This is the JavaScript object-spread update used at `Dashboard.jsx:269-275`. -/
def objInsert (m : JsObject α) (k : String) (v : α) : JsObject α :=
  if m.any (fun p => p.1 = k) then
    m.map (fun p => if p.1 = k then (k, v) else p)
  else
    m ++ [(k, v)]

/-- `Object.keys` of the map: the keys in insertion order. -/
def objKeys (m : JsObject α) : List String :=
  m.map Prod.fst

/-- Reading `m[k]` from a JavaScript object map. -/
def objGet (m : JsObject α) (k : String) : Option α :=
  (m.find? (fun p => p.1 = k)).map Prod.snd

/-- `MAX_TIMELINE_POINTS = 20` (`Dashboard.jsx:257`). -/
def MAX_TIMELINE_POINTS : ℕ := 20

/-- The dashboard state mutated by `handleEmotionUpdate`: the
`participantEmotions` object map and the `timelineDataRef` list. -/
structure DashState where
  participantEmotions : JsObject PartEntry
  timelineData : List PartEntry
deriving DecidableEq, Repr

/-- The initial dashboard state: `useState({})` and `useRef([])`. -/
def initState : DashState :=
  { participantEmotions := [], timelineData := [] }

/-- `handleEmotionUpdate` (`Dashboard.jsx:265-290`): on an incoming emotion
update `data` arriving at local time `now`,
1. `participantEmotions[data.participantId]` is set (unconditionally) to
   `{ ...data, timestamp: new Date() }`;
2. `{ ...data, timestamp }` is appended to the timeline and, when the
   length exceeds `MAX_TIMELINE_POINTS`, the oldest entry is removed
   (`newTimelineData.shift()`). -/
def handleEmotionUpdate (s : DashState) (data : EmotionData) (now : ℚ) : DashState :=
  let entry := mkEntry data now
  let pe := objInsert s.participantEmotions data.participantId entry
  let appended := s.timelineData ++ [entry]
  let ntl := if MAX_TIMELINE_POINTS < appended.length then appended.tail else appended
  { participantEmotions := pe, timelineData := ntl }

/-- Folding a whole arrival sequence (each event paired with its local
arrival time) through `handleEmotionUpdate`, starting from the initial
state. -/
def runUpdates (evs : List (EmotionData × ℚ)) : DashState :=
  evs.foldl (fun s p => handleEmotionUpdate s p.1 p.2) initState

/-- `positiveEmotions = ['happy', 'surprise']` (`Dashboard.jsx:514`). -/
def positiveEmotions : List EmotionLabel := [.happy, .surprise]

/-- `negativeEmotions = ['sad', 'angry', 'fear', 'disgust']`
(`Dashboard.jsx:515`). -/
def negativeEmotions : List EmotionLabel := [.sad, .angry, .fear, .disgust]

/-- `arr.slice(-n)`: the suffix of the last `n` elements (all of them when
the list is shorter than `n`). -/
def sliceLast (n : ℕ) (l : List α) : List α :=
  l.drop (l.length - n)

/-- The `forEach` loop of `fetchSessionStats` (`Dashboard.jsx:520-526`):
walks the recent emotions accumulating `(positiveCount, negativeCount)`;
an emotion in `positiveEmotions` bumps the first counter, else one in
`negativeEmotions` bumps the second, and anything else (neutral) is
skipped. -/
def countPosNeg (l : List PartEntry) : ℕ × ℕ :=
  l.foldl
    (fun pn e =>
      if e.emotion ∈ positiveEmotions then (pn.1 + 1, pn.2)
      else if e.emotion ∈ negativeEmotions then (pn.1, pn.2 + 1)
      else pn)
    (0, 0)

/-- The engagement-score computation of `fetchSessionStats`
(`Dashboard.jsx:512-529`):
`recentEmotions = emotionTimeline.slice(-10)`, count positives/negatives,
`total = recentEmotions.length || 1`, and
`Math.max(0, Math.min(100, 50 + ((positiveCount - negativeCount) / total) * 50))`. -/
def engagementScore (emotionTimeline : List PartEntry) : ℚ :=
  let recentEmotions := sliceLast 10 emotionTimeline
  let pn := countPosNeg recentEmotions
  let total : ℚ := if recentEmotions.length = 0 then 1 else (recentEmotions.length : ℚ)
  max 0 (min 100 (50 + (((pn.1 : ℚ) - (pn.2 : ℚ)) / total) * 50))

/-- `participant_count: Object.keys(participantEmotions).length`
(`Dashboard.jsx:534`). -/
def participantCount (s : DashState) : ℕ :=
  (objKeys s.participantEmotions).length

/-- JavaScript's `x.toFixed(0)` on a non-negative number: round to the
nearest integer, ties going up. -/
def jsToFixed0 (v : ℚ) : ℤ :=
  ⌊v + 1/2⌋

/-- The engagement-score figure rendered by `EmotionStats.jsx:31`:
`stats.engagement_score ? stats.engagement_score.toFixed(0) : 0`.
`none` models an absent/undefined `engagement_score`; a present score of
exactly `0` is falsy in JavaScript, so it also takes the `: 0` branch. -/
def renderEngagement (score : Option ℚ) : ℤ :=
  match score with
  | none => 0
  | some v => if v = 0 then 0 else jsToFixed0 v

/-- The spec's wording of the scorer (§4.4), written for comparison with
the code's `engagementScore`: window of the most recent `W = 10` events,
`positiveCount` and `negativeCount` over POSITIVE = {happy, surprise} and
NEGATIVE = {sad, angry, fear, disgust} (neutral excluded), and
`clamp(50 + ((positiveCount - negativeCount) / max(1, windowSize)) * 50, 0, 100)`. -/
def specScore (emotionTimeline : List PartEntry) : ℚ :=
  let window := sliceLast 10 emotionTimeline
  let windowSize := window.length
  let positiveCount := window.countP (fun e => decide (e.emotion ∈ positiveEmotions))
  let negativeCount := window.countP (fun e => decide (e.emotion ∈ negativeEmotions))
  min (max (50 + (((positiveCount : ℚ) - (negativeCount : ℚ)) / (max 1 windowSize : ℕ)) * 50) 0) 100

end Frontend

namespace Engine

/-! The backend session-aggregation engine.  The repository snapshot only
contains its frontend callers (HTTP/WebSocket consumers in `src/frontend`),
so every definition in this namespace is modelled from the specification,
§3–§4, as noted on each one. -/

/-- Modelled from the spec: the backend `EmotionEvent` record (§3) — the
normalized classification observation; the backend source is not in the
repository snapshot. -/
structure EmotionEvent where
  sessionId : String
  participantId : String
  emotion : EmotionLabel
  confidence : ℚ
  timestamp : ℚ
deriving DecidableEq, Repr

/-- Modelled from the spec: a raw, not-yet-validated classification event
reaching the ingestion boundary (§4.1); `emotion` is an arbitrary string
and `confidence` is `none` when the incoming value is not numeric. -/
structure RawEvent where
  sessionId : String
  participantId : String
  emotion : String
  confidence : Option ℚ
  timestamp : ℚ
deriving DecidableEq, Repr

/-- Modelled from the spec: the typed validation error of §4.1/§7,
identifying which field failed. -/
inductive ValidationError where
  | badEmotionLabel
  | badConfidence
  | missingSessionId
  | missingParticipantId
deriving DecidableEq, Repr

/-- Parsing a raw emotion string against the closed label set (§3):
any string outside the seven labels yields `none`. -/
def parseEmotion (s : String) : Option EmotionLabel :=
  if s = "happy" then some .happy
  else if s = "sad" then some .sad
  else if s = "angry" then some .angry
  else if s = "surprise" then some .surprise
  else if s = "fear" then some .fear
  else if s = "disgust" then some .disgust
  else if s = "neutral" then some .neutral
  else none

/-- Modelled from the spec: `normalize(rawEvent) -> EmotionEvent |
ValidationError` (§4.1; backend source not in the snapshot).  Rejects an
emotion outside the closed label set, a non-numeric or out-of-range
confidence (never clamped), and an empty sessionId/participantId; any
other input yields the normalized event. -/
def normalize (r : RawEvent) : Except ValidationError EmotionEvent :=
  match parseEmotion r.emotion with
  | none => .error .badEmotionLabel
  | some em =>
    match r.confidence with
    | none => .error .badConfidence
    | some c =>
      if c < 0 ∨ 100 < c then .error .badConfidence
      else if r.sessionId = "" then .error .missingSessionId
      else if r.participantId = "" then .error .missingParticipantId
      else .ok
        { sessionId := r.sessionId
          participantId := r.participantId
          emotion := em
          confidence := c
          timestamp := r.timestamp }

/-- Modelled from the spec: `ParticipantState` (§3) — latest known emotion
per participant. -/
structure ParticipantState where
  participantId : String
  lastEmotion : EmotionLabel
  lastConfidence : ℚ
  lastUpdated : ℚ
deriving DecidableEq, Repr

/-- Modelled from the spec: the per-participant tracker update (§4.2) —
creates the state for an unseen participant, and otherwise overwrites only
when `event.timestamp >= existing.lastUpdated` (late events dropped). -/
def trackerUpdate (ps : List (String × ParticipantState)) (ev : EmotionEvent) :
    List (String × ParticipantState) :=
  let st : ParticipantState :=
    { participantId := ev.participantId
      lastEmotion := ev.emotion
      lastConfidence := ev.confidence
      lastUpdated := ev.timestamp }
  match ps.find? (fun p => p.1 = ev.participantId) with
  | none => ps ++ [(ev.participantId, st)]
  | some (_, old) =>
    if old.lastUpdated ≤ ev.timestamp then
      ps.map (fun p => if p.1 = ev.participantId then (ev.participantId, st) else p)
    else ps

/-- The seven emotion labels, the enumeration order of §3. -/
def allLabels : List EmotionLabel :=
  [.happy, .sad, .angry, .surprise, .fear, .disgust, .neutral]

/-- Modelled from the spec: `totalAcceptedEvents` of §4.3 — the sum of the
all-time emotion counts. -/
def totalAcceptedEvents (counts : EmotionLabel → ℕ) : ℕ :=
  (allLabels.map counts).sum

/-- Modelled from the spec: `summaryPercentages[label] =
emotionCounts[label] / totalAcceptedEvents * 100`, recomputed on demand,
reporting 0 for every label when `totalAcceptedEvents == 0` (§4.3). -/
def summaryPercentages (counts : EmotionLabel → ℕ) (l : EmotionLabel) : ℚ :=
  if totalAcceptedEvents counts = 0 then 0
  else (counts l : ℚ) / (totalAcceptedEvents counts : ℚ) * 100

/-- The alert severity levels of §3/§4.5. -/
inductive AlertLevel where
  | low | high
deriving DecidableEq, Repr

/-- Modelled from the spec: the nullable `Alert` record (§3). -/
structure Alert where
  level : AlertLevel
  message : String
  percentage : ℚ
deriving DecidableEq, Repr

/-- Modelled from the spec: the cumulative negative-emotion share
`disengagedPct = percentages[sad] + percentages[angry] + percentages[fear]
+ percentages[disgust]` (§4.5). -/
def disengagedPct (percentages : EmotionLabel → ℚ) : ℚ :=
  percentages .sad + percentages .angry + percentages .fear + percentages .disgust

/-- Modelled from the spec: `evaluate(summaryPercentages) -> Alert | null`
(§4.5; backend source not in the snapshot).  `disengagedPct >= 60` gives a
high alert, `>= 35` a low alert, anything below returns `none` (clearing a
prior alert — alerts are not sticky). -/
def evaluate (percentages : EmotionLabel → ℚ) : Option Alert :=
  if 60 ≤ disengagedPct percentages then
    some { level := .high, message := "High disengagement detected",
           percentage := disengagedPct percentages }
  else if 35 ≤ disengagedPct percentages then
    some { level := .low, message := "Low engagement warning",
           percentage := disengagedPct percentages }
  else none

/-- Modelled from the spec: the §4.4 engagement scorer over the backend
timeline — window of the most recent `W = 10` accepted events, positives
{happy, surprise} minus negatives {sad, angry, fear, disgust} (neutral
excluded), `clamp(50 + ((pos - neg) / max(1, windowSize)) * 50, 0, 100)`. -/
def scoreTimeline (timeline : List EmotionEvent) : ℚ :=
  let window := timeline.drop (timeline.length - 10)
  let windowSize := window.length
  let pos := window.countP (fun e => e.emotion = .happy ∨ e.emotion = .surprise)
  let neg := window.countP (fun e =>
    e.emotion = .sad ∨ e.emotion = .angry ∨ e.emotion = .fear ∨ e.emotion = .disgust)
  min (max (50 + (((pos : ℚ) - (neg : ℚ)) / (max 1 windowSize : ℕ)) * 50) 0) 100

/-- Modelled from the spec: the `SessionAggregate` owning entity (§3) —
participants map, all-time emotion counts, append-only timeline, derived
engagement score and alert state; `endTime` is `none` while Active. -/
structure SessionAggregate where
  sessionId : String
  startTime : ℚ
  endTime : Option ℚ
  participants : List (String × ParticipantState)
  emotionCounts : EmotionLabel → ℕ
  timeline : List EmotionEvent
  engagementScore : ℚ
  alertState : Option Alert

/-- Modelled from the spec: the error taxonomy of §7 relevant to
ingestion — a validation failure or a state error on a Stopped session. -/
inductive IngestError where
  | validation (e : ValidationError)
  | stateError
deriving DecidableEq, Repr

/-- Modelled from the spec: `start(sessionId)` (§4.7) — a fresh Active
aggregate with empty state. -/
def start (sessionId : String) (now : ℚ) : SessionAggregate :=
  { sessionId := sessionId
    startTime := now
    endTime := none
    participants := []
    emotionCounts := fun _ => 0
    timeline := []
    engagementScore := 50
    alertState := none }

/-- Modelled from the spec: `ingest(event)` (§4.7; backend source not in
the snapshot) — rejected with a `StateError` on a Stopped aggregate (state
unchanged), rejected with the validator's error on a bad event (state
unchanged), and otherwise routes through §4.1–§4.6 in order: tracker
update, count increment, timeline append, score and alert recomputation.
Returns the (possibly unchanged) aggregate and the error, if any. -/
def ingest (agg : SessionAggregate) (raw : RawEvent) :
    SessionAggregate × Option IngestError :=
  match agg.endTime with
  | some _ => (agg, some .stateError)
  | none =>
    match normalize raw with
    | .error e => (agg, some (.validation e))
    | .ok ev =>
      let counts := fun l => if l = ev.emotion then agg.emotionCounts l + 1 else agg.emotionCounts l
      let timeline := agg.timeline ++ [ev]
      ({ agg with
          participants := trackerUpdate agg.participants ev
          emotionCounts := counts
          timeline := timeline
          engagementScore := scoreTimeline timeline
          alertState := evaluate (summaryPercentages counts) },
        none)

/-- Modelled from the spec: `stop()` (§4.7) — transitions to Stopped by
setting `endTime = now`, freezing further ingestion; already-ingested
state is retained. -/
def stop (agg : SessionAggregate) (now : ℚ) : SessionAggregate :=
  { agg with endTime := some now }

end Engine

namespace Frontend

/-- The `forEach` accumulation computes the two `countP`s: positives in
{happy, surprise} and negatives in {sad, angry, fear, disgust} (the two
sets are disjoint, so the `else if` loses nothing). -/
theorem countPosNeg_foldl (l : List PartEntry) (a b : ℕ) :
    l.foldl
      (fun pn e =>
        if e.emotion ∈ positiveEmotions then (pn.1 + 1, pn.2)
        else if e.emotion ∈ negativeEmotions then (pn.1, pn.2 + 1)
        else pn)
      (a, b) =
      (a + l.countP (fun e => decide (e.emotion ∈ positiveEmotions)),
       b + l.countP (fun e => decide (e.emotion ∈ negativeEmotions))) := by
  induction l generalizing a b with
  | nil => simp
  | cons e l ih =>
    rw [List.foldl_cons, List.countP_cons, List.countP_cons]
    by_cases hp : e.emotion ∈ positiveEmotions
    · have hn : e.emotion ∉ negativeEmotions := by
        revert hp; cases e.emotion <;> decide
      rw [if_pos hp, ih]
      simp [hp, hn, Prod.ext_iff]
      omega
    · rw [if_neg hp]
      by_cases hn : e.emotion ∈ negativeEmotions
      · rw [if_pos hn, ih]
        simp [hp, hn, Prod.ext_iff]
        omega
      · rw [if_neg hn, ih]
        simp [hp, hn]

theorem countPosNeg_eq (l : List PartEntry) :
    countPosNeg l =
      (l.countP (fun e => decide (e.emotion ∈ positiveEmotions)),
       l.countP (fun e => decide (e.emotion ∈ negativeEmotions))) := by
  simpa [countPosNeg] using countPosNeg_foldl l 0 0

/-- `max 0 (min 100 x)` (the code's clamp) equals `min (max x 0) 100`
(the spec's clamp). -/
theorem clamp_comm (x : ℚ) : max 0 (min 100 x) = min (max x 0) 100 := by
  simp only [max_def, min_def]
  split_ifs <;> linarith

end Frontend

example : Frontend.engagementScore [] = 50 := by
  norm_num [Frontend.engagementScore, Frontend.sliceLast, Frontend.countPosNeg,
    min_def, max_def]
example :
    Frontend.engagementScore
      [⟨"P1", .happy, 90, 1⟩, ⟨"P2", .sad, 80, 2⟩, ⟨"P1", .happy, 85, 3⟩] = 200/3 := by
  simp [Frontend.engagementScore, Frontend.sliceLast, Frontend.countPosNeg,
    Frontend.positiveEmotions, Frontend.negativeEmotions]
  norm_num [min_def, max_def]

/-- **C1**: for every sequence of accepted events, the dashboard's
engagement score (`fetchSessionStats`, `Dashboard.jsx:512-529`) is computed
over the window of the most recent W=10 timeline entries in insertion
order, counting positives {happy, surprise} and negatives {sad, angry,
fear, disgust}, excluding neutral, and returning
`clamp(50 + ((positiveCount - negativeCount) / max(1, windowSize)) * 50, 0, 100)` —
i.e. the code's computation coincides with the spec's formula `specScore`. -/
theorem engagement_score_formula (tl : List Frontend.PartEntry) :
    Frontend.engagementScore tl = Frontend.specScore tl := by
  simp only [Frontend.engagementScore, Frontend.specScore, Frontend.countPosNeg_eq]
  have hT :
      (if (Frontend.sliceLast 10 tl).length = 0 then (1 : ℚ)
        else ((Frontend.sliceLast 10 tl).length : ℚ)) =
      ((max 1 (Frontend.sliceLast 10 tl).length : ℕ) : ℚ) := by
    rcases Nat.eq_zero_or_pos (Frontend.sliceLast 10 tl).length with h | h
    · simp [h]
    · have h1 : (Frontend.sliceLast 10 tl).length ≠ 0 := Nat.pos_iff_ne_zero.mp h
      simp [h1, Nat.max_eq_right h]
  rw [hT, Frontend.clamp_comm]

/-- **C4**: the engagement scorer is total and bounded — the empty window
yields 50 (the `length || 1` guard prevents division by zero), an
all-neutral timeline yields 50, and for every sequence of events the score
lies in [0,100] (the clamp is always applied). -/
theorem engagement_score_total_and_bounded :
    Frontend.engagementScore [] = 50 ∧
    (∀ tl : List Frontend.PartEntry, (∀ e ∈ tl, e.emotion = .neutral) →
      Frontend.engagementScore tl = 50) ∧
    (∀ tl : List Frontend.PartEntry,
      0 ≤ Frontend.engagementScore tl ∧ Frontend.engagementScore tl ≤ 100) := by
  refine ⟨?_, ?_, ?_⟩
  · norm_num [Frontend.engagementScore, Frontend.sliceLast, Frontend.countPosNeg,
      min_def, max_def]
  · intro tl h
    have hsub : ∀ e ∈ Frontend.sliceLast 10 tl, e.emotion = EmotionLabel.neutral :=
      fun e he => h e (List.mem_of_mem_drop he)
    have hp : (Frontend.sliceLast 10 tl).countP
        (fun e => decide (e.emotion ∈ Frontend.positiveEmotions)) = 0 := by
      rw [List.countP_eq_zero]
      intro e he
      simp [hsub e he, Frontend.positiveEmotions]
    have hn : (Frontend.sliceLast 10 tl).countP
        (fun e => decide (e.emotion ∈ Frontend.negativeEmotions)) = 0 := by
      rw [List.countP_eq_zero]
      intro e he
      simp [hsub e he, Frontend.negativeEmotions]
    simp only [Frontend.engagementScore, Frontend.countPosNeg_eq, hp, hn]
    norm_num [min_def, max_def]
  · intro tl
    constructor
    · exact le_max_left 0 _
    · exact max_le (by norm_num) (min_le_left _ _)

/-- Witness for C4: the all-neutral hypothesis holds at a concrete
two-event timeline, and the score there is 50. -/
theorem engagement_score_total_and_bounded_witness :
    Frontend.engagementScore [⟨"P1", .neutral, 70, 1⟩, ⟨"P2", .neutral, 60, 2⟩] = 50 :=
  engagement_score_total_and_bounded.2.1
    [⟨"P1", .neutral, 70, 1⟩, ⟨"P2", .neutral, 60, 2⟩] (by decide)

/-- **C10**: `EmotionStats.jsx` selects the engagement score with a
truthiness test, so a score of exactly 0 renders identically (0%) to an
absent/undefined score, and every non-zero score s in (0,100] is shown
rounded to an integer percent. -/
theorem render_engagement_truthiness :
    (Frontend.renderEngagement none = 0 ∧
      Frontend.renderEngagement (some 0) = 0 ∧
      Frontend.renderEngagement (some 0) = Frontend.renderEngagement none) ∧
    (∀ s : ℚ, 0 < s → s ≤ 100 → Frontend.renderEngagement (some s) = round s) := by
  refine ⟨⟨rfl, by simp [Frontend.renderEngagement], by simp [Frontend.renderEngagement]⟩, ?_⟩
  intro s hs _
  simp [Frontend.renderEngagement, ne_of_gt hs, Frontend.jsToFixed0, round_eq]

/-- Witness for C10: a concrete non-zero score 66.5 is displayed as its
rounding. -/
theorem render_engagement_truthiness_witness :
    Frontend.renderEngagement (some (133/2)) = round ((133 : ℚ)/2) :=
  render_engagement_truthiness.2 (133/2) (by norm_num) (by norm_num)

namespace Frontend

/-- Reading back the key just written by an object-spread update always
yields the new value. -/
theorem objGet_objInsert_self (m : JsObject α) (k : String) (v : α) :
    objGet (objInsert m k v) k = some v := by
  unfold objGet objInsert
  by_cases h : m.any (fun p => p.1 = k)
  · rw [if_pos h]
    induction m with
    | nil => simp at h
    | cons p m ih =>
      by_cases hk : p.1 = k
      · simp [hk, List.find?_cons]
      · have h' : m.any (fun p => p.1 = k) := by
          simpa [List.any_cons, hk] using h
        simpa [hk, List.find?_cons] using ih h'
  · rw [if_neg h]
    induction m with
    | nil => simp [List.find?_cons]
    | cons p m ih =>
      have hk : ¬p.1 = k := by
        intro hk
        exact h (by simp [List.any_cons, hk])
      have h' : ¬m.any (fun p => p.1 = k) := by
        intro h'
        exact h (by simp [List.any_cons, h'])
      simpa [hk, List.find?_cons] using ih h'

end Frontend

/-- **C2 counterexample**: the claim fails on `handleEmotionUpdate`
(`Dashboard.jsx:269-275`).  For participant "P", an event at t=10 followed
by a late event at t=5 is NOT dropped: the stored emotion after both
updates is the second event's (`sad`), not the first's (`happy`) — the
update is an unconditional object-spread overwrite with no timestamp
comparison. -/
theorem tracker_overwrite_counterexample :
    (Frontend.objGet
        (Frontend.handleEmotionUpdate
            (Frontend.handleEmotionUpdate Frontend.initState ⟨"P", .happy, 90, 10⟩ 100)
            ⟨"P", .sad, 80, 5⟩ 101).participantEmotions "P").map
        Frontend.PartEntry.emotion = some .sad ∧
      EmotionLabel.sad ≠ EmotionLabel.happy := by
  exact ⟨rfl, by decide⟩

/-- **C2** (amended): the per-participant tracker overwrites
`lastEmotion`/`lastConfidence`/`lastUpdated` unconditionally on every
incoming event (last arrival wins), stamping the entry with the local
arrival time; a late event for the same participant replaces the stored
state rather than being dropped. -/
theorem tracker_last_arrival_wins (s : Frontend.DashState)
    (data : Frontend.EmotionData) (now : ℚ) :
    Frontend.objGet
        (Frontend.handleEmotionUpdate s data now).participantEmotions
        data.participantId
      = some (Frontend.mkEntry data now) := by
  unfold Frontend.handleEmotionUpdate
  exact Frontend.objGet_objInsert_self _ _ _

namespace Frontend

theorem sliceLast_length_le (n : ℕ) (l : List α) : (sliceLast n l).length ≤ n := by
  simp only [sliceLast, List.length_drop]
  omega

theorem sliceLast_length (n : ℕ) (l : List α) :
    (sliceLast n l).length = min n l.length := by
  simp only [sliceLast, List.length_drop]
  omega

theorem sliceLast_of_le (n : ℕ) (l : List α) (h : l.length ≤ n) : sliceLast n l = l := by
  simp [sliceLast, Nat.sub_eq_zero_of_le h]

/-- Re-slicing after appending: the last `n` of (the last `n` of `x`, then
`r`) are the last `n` of `x ++ r`. -/
theorem sliceLast_append_sliceLast (n : ℕ) (x r : List α) :
    sliceLast n (sliceLast n x ++ r) = sliceLast n (x ++ r) := by
  rcases le_or_lt x.length n with h | h
  · rw [sliceLast_of_le n x h]
  · unfold sliceLast
    have hy : (x.drop (x.length - n)).length = n := by
      rw [List.length_drop]; omega
    rw [List.length_append, List.length_append, hy]
    have h1 : n + r.length - n = r.length := by omega
    rw [h1]
    have h4 : x.length + r.length - n = (x.length - n) + r.length := by omega
    rw [h4, ← List.drop_drop]
    congr 1
    rw [List.drop_append_eq_append_drop,
      Nat.sub_eq_zero_of_le (Nat.sub_le x.length n), List.drop_zero]

/-- One `handleEmotionUpdate` timeline step, starting within the cap,
keeps exactly the last `MAX_TIMELINE_POINTS = 20` entries. -/
theorem capStep_eq (t : List PartEntry) (en : PartEntry) (h : t.length ≤ 20) :
    (if MAX_TIMELINE_POINTS < (t ++ [en]).length then (t ++ [en]).tail else t ++ [en])
      = sliceLast 20 (t ++ [en]) := by
  have hlen : (t ++ [en]).length = t.length + 1 := by simp
  rcases lt_or_eq_of_le h with h' | h'
  · have hc : ¬ MAX_TIMELINE_POINTS < (t ++ [en]).length := by
      simp only [MAX_TIMELINE_POINTS, hlen]; omega
    rw [if_neg hc, sliceLast_of_le]
    omega
  · have hc : MAX_TIMELINE_POINTS < (t ++ [en]).length := by
      simp only [MAX_TIMELINE_POINTS, hlen]; omega
    rw [if_pos hc, ← List.drop_one]
    unfold sliceLast
    congr 1
    omega

/-- Folding arrivals through `handleEmotionUpdate` from any state within
the cap leaves the timeline equal to the last 20 of everything appended. -/
theorem runUpdates_timeline_aux (evs : List (EmotionData × ℚ)) :
    ∀ s : DashState, s.timelineData.length ≤ 20 →
      (evs.foldl (fun s p => handleEmotionUpdate s p.1 p.2) s).timelineData
        = sliceLast 20 (s.timelineData ++ evs.map (fun p => mkEntry p.1 p.2)) := by
  induction evs with
  | nil =>
    intro s h
    simp [sliceLast_of_le 20 _ h]
  | cons e evs ih =>
    intro s h
    rw [List.foldl_cons]
    have hstep : (handleEmotionUpdate s e.1 e.2).timelineData
        = sliceLast 20 (s.timelineData ++ [mkEntry e.1 e.2]) := by
      unfold handleEmotionUpdate
      exact capStep_eq _ _ h
    have hlen : (handleEmotionUpdate s e.1 e.2).timelineData.length ≤ 20 := by
      rw [hstep]; exact sliceLast_length_le _ _
    rw [ih _ hlen, hstep, sliceLast_append_sliceLast]
    simp

end Frontend

/-- **C3 counterexample**: the claim fails on `handleEmotionUpdate`
(`Dashboard.jsx:279-287`).  After 21 accepted events the timeline holds
20 entries, not 21 — the `MAX_TIMELINE_POINTS` cap removes the oldest
entry, so the timeline is neither unbounded nor append-only. -/
theorem timeline_unbounded_counterexample :
    (Frontend.runUpdates
        (List.replicate 21 (⟨"P", .happy, 90, 1⟩, (1 : ℚ)))).timelineData.length = 20 ∧
      (List.replicate 21 ((⟨"P", .happy, 90, 1⟩ : Frontend.EmotionData), (1 : ℚ))).length
        = 21 ∧ (20 : ℕ) ≠ 21 := by
  refine ⟨by decide, by decide, by decide⟩

/-- **C3** (amended): the session timeline is appended in ingestion
(insertion) order but capped at `MAX_TIMELINE_POINTS = 20` entries: when
the length would exceed 20 the oldest entry is removed, so after `n`
accepted events the timeline contains exactly the most recent
`min n 20` events in insertion order. -/
theorem timeline_capped (evs : List (Frontend.EmotionData × ℚ)) :
    (Frontend.runUpdates evs).timelineData
        = Frontend.sliceLast 20 (evs.map (fun p => Frontend.mkEntry p.1 p.2)) ∧
      (Frontend.runUpdates evs).timelineData.length = min evs.length 20 := by
  have h := Frontend.runUpdates_timeline_aux evs Frontend.initState
    (by simp [Frontend.initState])
  constructor
  · simpa [Frontend.runUpdates, Frontend.initState] using h
  · have h2 : (Frontend.runUpdates evs).timelineData
        = Frontend.sliceLast 20 (evs.map (fun p => Frontend.mkEntry p.1 p.2)) := by
      simpa [Frontend.runUpdates, Frontend.initState] using h
    rw [h2, Frontend.sliceLast_length, List.length_map]
    omega

namespace Frontend

theorem any_key_iff (m : JsObject α) (k : String) :
    m.any (fun p => p.1 = k) = true ↔ k ∈ objKeys m := by
  simp [objKeys, List.any_eq_true, List.mem_map]

/-- The keys after an object-spread update: unchanged when the key was
present, appended otherwise. -/
theorem objKeys_objInsert (m : JsObject α) (k : String) (v : α) :
    objKeys (objInsert m k v)
      = if k ∈ objKeys m then objKeys m else objKeys m ++ [k] := by
  unfold objInsert
  by_cases h : m.any (fun p => p.1 = k)
  · rw [if_pos h, if_pos ((any_key_iff m k).mp h)]
    unfold objKeys
    rw [List.map_map]
    apply List.map_congr_left
    intro p _
    by_cases hp : p.1 = k
    · simp [hp]
    · simp [hp]
  · rw [if_neg h, if_neg (fun hk => h ((any_key_iff m k).mpr hk))]
    simp [objKeys]

theorem mem_objKeys_objInsert (m : JsObject α) (k k' : String) (v : α) :
    k' ∈ objKeys (objInsert m k v) ↔ k' ∈ objKeys m ∨ k' = k := by
  rw [objKeys_objInsert]
  by_cases h : k ∈ objKeys m
  · rw [if_pos h]
    constructor
    · exact Or.inl
    · rintro (h' | rfl)
      · exact h'
      · exact h
  · simp [if_neg h]

theorem nodup_objKeys_objInsert (m : JsObject α) (k : String) (v : α)
    (h : (objKeys m).Nodup) : (objKeys (objInsert m k v)).Nodup := by
  rw [objKeys_objInsert]
  by_cases hk : k ∈ objKeys m
  · rwa [if_pos hk]
  · rw [if_neg hk]
    simp [List.nodup_append, h, hk]

theorem length_objKeys_objInsert (m : JsObject α) (k : String) (v : α) :
    (objKeys m).length ≤ (objKeys (objInsert m k v)).length := by
  rw [objKeys_objInsert]
  by_cases hk : k ∈ objKeys m
  · rw [if_pos hk]
  · rw [if_neg hk]
    simp

/-- `handleEmotionUpdate`'s participant map is exactly the object-spread
insert of the stamped entry. -/
theorem handleEmotionUpdate_pe (s : DashState) (data : EmotionData) (now : ℚ) :
    (handleEmotionUpdate s data now).participantEmotions
      = objInsert s.participantEmotions data.participantId (mkEntry data now) := rfl

theorem mem_keys_runUpdates_aux (evs : List (EmotionData × ℚ)) :
    ∀ (s : DashState) (x : String),
      (x ∈ objKeys (evs.foldl (fun s p => handleEmotionUpdate s p.1 p.2)
          s).participantEmotions ↔
        x ∈ objKeys s.participantEmotions
          ∨ x ∈ evs.map (fun p => p.1.participantId)) := by
  induction evs with
  | nil => intro s x; simp
  | cons e evs ih =>
    intro s x
    rw [List.foldl_cons, ih, handleEmotionUpdate_pe, mem_objKeys_objInsert]
    simp [or_assoc, eq_comm]

theorem nodup_keys_runUpdates_aux (evs : List (EmotionData × ℚ)) :
    ∀ s : DashState, (objKeys s.participantEmotions).Nodup →
      (objKeys (evs.foldl (fun s p => handleEmotionUpdate s p.1 p.2)
          s).participantEmotions).Nodup := by
  induction evs with
  | nil => intro s h; exact h
  | cons e evs ih =>
    intro s h
    rw [List.foldl_cons]
    exact ih _ (by rw [handleEmotionUpdate_pe]; exact nodup_objKeys_objInsert _ _ _ h)

end Frontend

/-- **C9**: the live-session participant map only ever gains or replaces
entries and never removes one (the old keys survive every update), so the
reported `participant_count` equals the number of distinct participantIds
observed since the view started, and is monotonically non-decreasing
across updates — a participant who stops sending events is never excluded
from the count. -/
theorem participant_count_distinct_monotone :
    (∀ (s : Frontend.DashState) (data : Frontend.EmotionData) (now : ℚ),
      Frontend.objKeys s.participantEmotions ⊆
        Frontend.objKeys
          (Frontend.handleEmotionUpdate s data now).participantEmotions) ∧
    (∀ evs : List (Frontend.EmotionData × ℚ),
      Frontend.participantCount (Frontend.runUpdates evs)
        = (evs.map (fun p => p.1.participantId)).dedup.length) ∧
    (∀ (evs : List (Frontend.EmotionData × ℚ)) (e : Frontend.EmotionData × ℚ),
      Frontend.participantCount (Frontend.runUpdates evs)
        ≤ Frontend.participantCount (Frontend.runUpdates (evs ++ [e]))) := by
  refine ⟨?_, ?_, ?_⟩
  · intro s data now x hx
    rw [Frontend.handleEmotionUpdate_pe, Frontend.mem_objKeys_objInsert]
    exact Or.inl hx
  · intro evs
    have hnd : (Frontend.objKeys
        (Frontend.runUpdates evs).participantEmotions).Nodup :=
      Frontend.nodup_keys_runUpdates_aux evs Frontend.initState (by simp [Frontend.initState, Frontend.objKeys])
    have hmem : ∀ x, x ∈ Frontend.objKeys (Frontend.runUpdates evs).participantEmotions
        ↔ x ∈ evs.map (fun p => p.1.participantId) := by
      intro x
      rw [Frontend.runUpdates, Frontend.mem_keys_runUpdates_aux]
      simp [Frontend.initState, Frontend.objKeys]
    have hfs : (Frontend.objKeys (Frontend.runUpdates evs).participantEmotions).toFinset
        = (evs.map (fun p => p.1.participantId)).toFinset := by
      ext x
      simp only [List.mem_toFinset]
      exact hmem x
    calc Frontend.participantCount (Frontend.runUpdates evs)
        = (Frontend.objKeys (Frontend.runUpdates evs).participantEmotions).toFinset.card :=
          (List.toFinset_card_of_nodup hnd).symm
      _ = (evs.map (fun p => p.1.participantId)).toFinset.card := by rw [hfs]
      _ = (evs.map (fun p => p.1.participantId)).dedup.length :=
          List.card_toFinset _
  · intro evs e
    unfold Frontend.participantCount Frontend.runUpdates
    rw [List.foldl_append]
    simp only [List.foldl_cons, List.foldl_nil]
    rw [Frontend.handleEmotionUpdate_pe]
    exact Frontend.length_objKeys_objInsert _ _ _

/-- Concrete percentage maps putting the whole disengaged share on `sad`,
used to exercise the alert thresholds at 34, 35, 60 and 100. -/
def c5pct (x : ℚ) : EmotionLabel → ℚ := fun l => if l = .sad then x else 0

/-- **C5**: the alert evaluator returns level "high" when
`disengagedPct >= 60`, level "low" when `35 <= disengagedPct < 60`, and
`none` when `disengagedPct < 35` (clearing any prior alert — alerts are
not sticky); the returned alert carries `disengagedPct` as its
percentage. -/
theorem alert_evaluator_thresholds (p : EmotionLabel → ℚ) :
    (Engine.disengagedPct p < 35 → Engine.evaluate p = none) ∧
    (35 ≤ Engine.disengagedPct p → Engine.disengagedPct p < 60 →
      (Engine.evaluate p).map Engine.Alert.level = some .low ∧
      (Engine.evaluate p).map Engine.Alert.percentage
        = some (Engine.disengagedPct p)) ∧
    (60 ≤ Engine.disengagedPct p →
      (Engine.evaluate p).map Engine.Alert.level = some .high ∧
      (Engine.evaluate p).map Engine.Alert.percentage
        = some (Engine.disengagedPct p)) := by
  refine ⟨?_, ?_, ?_⟩
  · intro h
    unfold Engine.evaluate
    rw [if_neg (by linarith), if_neg (by linarith)]
  · intro h1 h2
    unfold Engine.evaluate
    rw [if_neg (by linarith), if_pos h1]
    exact ⟨rfl, rfl⟩
  · intro h
    unfold Engine.evaluate
    rw [if_pos h]
    exact ⟨rfl, rfl⟩

/-- Witness for C5: the thresholds hold at the claim's concrete points —
disengagedPct = 34 gives no alert, 35 gives low, 60 gives high, 100 gives
high. -/
theorem alert_evaluator_thresholds_witness :
    Engine.evaluate (c5pct 34) = none ∧
    ((Engine.evaluate (c5pct 35)).map Engine.Alert.level = some .low ∧
      (Engine.evaluate (c5pct 35)).map Engine.Alert.percentage
        = some (Engine.disengagedPct (c5pct 35))) ∧
    ((Engine.evaluate (c5pct 60)).map Engine.Alert.level = some .high ∧
      (Engine.evaluate (c5pct 60)).map Engine.Alert.percentage
        = some (Engine.disengagedPct (c5pct 60))) ∧
    ((Engine.evaluate (c5pct 100)).map Engine.Alert.level = some .high ∧
      (Engine.evaluate (c5pct 100)).map Engine.Alert.percentage
        = some (Engine.disengagedPct (c5pct 100))) :=
  ⟨(alert_evaluator_thresholds (c5pct 34)).1
      (by simp [Engine.disengagedPct, c5pct] <;> norm_num),
   (alert_evaluator_thresholds (c5pct 35)).2.1
      (by simp [Engine.disengagedPct, c5pct])
      (by simp [Engine.disengagedPct, c5pct] <;> norm_num),
   (alert_evaluator_thresholds (c5pct 60)).2.2
      (by simp [Engine.disengagedPct, c5pct]),
   (alert_evaluator_thresholds (c5pct 100)).2.2
      (by simp [Engine.disengagedPct, c5pct] <;> norm_num)⟩

/-- **C6**: the recomputed summary percentages report 0 for every label
when `totalAcceptedEvents = 0` (no division error), equal
`emotionCounts[label] / totalAcceptedEvents * 100` otherwise, and for
every non-empty count table they sum to exactly 100 (exact over ℚ; the
spec's "approximately" allows only floating rounding). -/
theorem summary_percentages_sound :
    (∀ c : EmotionLabel → ℕ, Engine.totalAcceptedEvents c = 0 →
      ∀ l, Engine.summaryPercentages c l = 0) ∧
    (∀ c : EmotionLabel → ℕ, Engine.totalAcceptedEvents c ≠ 0 →
      (∀ l, Engine.summaryPercentages c l
          = (c l : ℚ) / (Engine.totalAcceptedEvents c : ℚ) * 100) ∧
      (Engine.allLabels.map (Engine.summaryPercentages c)).sum = 100) := by
  constructor
  · intro c h l
    simp [Engine.summaryPercentages, h]
  · intro c h
    refine ⟨fun l => by simp [Engine.summaryPercentages, h], ?_⟩
    have hT : ((Engine.totalAcceptedEvents c : ℕ) : ℚ) ≠ 0 := Nat.cast_ne_zero.mpr h
    have hsum : ((c .happy : ℚ) + c .sad + c .angry + c .surprise + c .fear
        + c .disgust + c .neutral) = ((Engine.totalAcceptedEvents c : ℕ) : ℚ) := by
      simp only [Engine.totalAcceptedEvents, Engine.allLabels, List.map_cons,
        List.map_nil, List.sum_cons, List.sum_nil]
      push_cast
      ring
    simp only [Engine.allLabels, List.map_cons, List.map_nil, List.sum_cons,
      List.sum_nil, Engine.summaryPercentages, if_neg h]
    field_simp
    linarith [hsum]

/-- Concrete non-empty count table: 2 happy, 1 sad (the spec's end-to-end
scenario counts). -/
def c6ex : EmotionLabel → ℕ := fun l => if l = .happy then 2 else if l = .sad then 1 else 0

/-- Witness for C6: the zero table reports 0 for happy, and the concrete
non-empty table's percentages sum to 100. -/
theorem summary_percentages_sound_witness :
    Engine.summaryPercentages (fun _ => 0) .happy = 0 ∧
    (Engine.allLabels.map (Engine.summaryPercentages c6ex)).sum = 100 :=
  ⟨summary_percentages_sound.1 (fun _ => 0) rfl .happy,
   (summary_percentages_sound.2 c6ex (by decide)).2⟩

/-- **C7**: after `stop()` has transitioned the aggregate to Stopped
(setting `endTime`), any further `ingest()` is rejected with a StateError
and mutates nothing: `emotionCounts`, `timeline` and `engagementScore`
(indeed the whole aggregate record) are unchanged. -/
theorem stopped_ingest_unchanged (agg : Engine.SessionAggregate) (tStop : ℚ)
    (raw : Engine.RawEvent) :
    (Engine.ingest (Engine.stop agg tStop) raw).1.emotionCounts
        = (Engine.stop agg tStop).emotionCounts ∧
    (Engine.ingest (Engine.stop agg tStop) raw).1.timeline
        = (Engine.stop agg tStop).timeline ∧
    (Engine.ingest (Engine.stop agg tStop) raw).1.engagementScore
        = (Engine.stop agg tStop).engagementScore ∧
    (Engine.ingest (Engine.stop agg tStop) raw).1 = Engine.stop agg tStop ∧
    (Engine.ingest (Engine.stop agg tStop) raw).2 = some .stateError :=
  ⟨rfl, rfl, rfl, rfl, rfl⟩

/-- **C8**: `normalize` succeeds exactly when the emotion string is in the
closed label set, the confidence is numeric and within [0,100] (never
clamped), and both ids are non-empty; on success it returns the normalized
event verbatim, and on any validation error the event never enters
aggregate state — `ingest` leaves the aggregate unchanged. -/
theorem normalize_validation_boundary :
    (∀ s : String, (Engine.parseEmotion s).isSome ↔
        s ∈ ["happy", "sad", "angry", "surprise", "fear", "disgust", "neutral"]) ∧
    (∀ r : Engine.RawEvent,
      (∃ ev, Engine.normalize r = .ok ev) ↔
        ((Engine.parseEmotion r.emotion).isSome ∧
          (∃ c, r.confidence = some c ∧ 0 ≤ c ∧ c ≤ 100) ∧
          r.sessionId ≠ "" ∧ r.participantId ≠ "")) ∧
    (∀ (r : Engine.RawEvent) (em : EmotionLabel) (c : ℚ),
      Engine.parseEmotion r.emotion = some em → r.confidence = some c →
      0 ≤ c → c ≤ 100 → r.sessionId ≠ "" → r.participantId ≠ "" →
      Engine.normalize r
        = .ok ⟨r.sessionId, r.participantId, em, c, r.timestamp⟩) ∧
    (∀ (agg : Engine.SessionAggregate) (r : Engine.RawEvent)
        (e : Engine.ValidationError),
      Engine.normalize r = .error e → (Engine.ingest agg r).1 = agg) := by
  refine ⟨?_, ?_, ?_, ?_⟩
  · intro s
    unfold Engine.parseEmotion
    split_ifs <;> simp_all
  · intro r
    cases hpe : Engine.parseEmotion r.emotion with
    | none =>
      have hval : Engine.normalize r = .error .badEmotionLabel := by
        unfold Engine.normalize
        rw [hpe]
      rw [hval]
      simp
    | some em =>
      cases hc : r.confidence with
      | none =>
        have hval : Engine.normalize r = .error .badConfidence := by
          unfold Engine.normalize
          rw [hpe, hc]
        rw [hval]
        simp
      | some c =>
        have hval : Engine.normalize r
            = (if c < 0 ∨ 100 < c then
                (.error .badConfidence : Except Engine.ValidationError Engine.EmotionEvent)
              else if r.sessionId = "" then .error .missingSessionId
              else if r.participantId = "" then .error .missingParticipantId
              else .ok ⟨r.sessionId, r.participantId, em, c, r.timestamp⟩) := by
          unfold Engine.normalize
          rw [hpe, hc]
        rw [hval]
        by_cases h1 : c < 0 ∨ 100 < c
        · rw [if_pos h1]
          constructor
          · rintro ⟨ev, hev⟩
            exact Except.noConfusion hev
          · rintro ⟨-, ⟨c', hc', h0, h100⟩, -, -⟩
            obtain rfl := Option.some.inj hc'
            rcases h1 with h1 | h1 <;> linarith
        · rw [if_neg h1]
          push_neg at h1
          by_cases hs : r.sessionId = ""
          · rw [if_pos hs]
            constructor
            · rintro ⟨ev, hev⟩
              exact Except.noConfusion hev
            · rintro ⟨-, -, hs', -⟩
              exact absurd hs hs'
          · rw [if_neg hs]
            by_cases hp : r.participantId = ""
            · rw [if_pos hp]
              constructor
              · rintro ⟨ev, hev⟩
                exact Except.noConfusion hev
              · rintro ⟨-, -, -, hp'⟩
                exact absurd hp hp'
            · rw [if_neg hp]
              constructor
              · rintro -
                exact ⟨by simp, ⟨c, rfl, h1.1, h1.2⟩, hs, hp⟩
              · rintro -
                exact ⟨_, rfl⟩
  · intro r em c hpe hc h0 h100 hs hp
    have hval : Engine.normalize r
        = (if c < 0 ∨ 100 < c then
            (.error .badConfidence : Except Engine.ValidationError Engine.EmotionEvent)
          else if r.sessionId = "" then .error .missingSessionId
          else if r.participantId = "" then .error .missingParticipantId
          else .ok ⟨r.sessionId, r.participantId, em, c, r.timestamp⟩) := by
      unfold Engine.normalize
      rw [hpe, hc]
    rw [hval, if_neg (by rintro (h | h) <;> linarith), if_neg hs, if_neg hp]
  · intro agg r e he
    unfold Engine.ingest
    cases hend : agg.endTime with
    | some t => rfl
    | none => rw [he]

/-- A raw event failing validation (confidence 150 is out of range). -/
def c8bad : Engine.RawEvent := ⟨"S1", "P1", "happy", some 150, 5⟩

/-- A fresh Active aggregate for the C8 witness. -/
def c8agg : Engine.SessionAggregate := Engine.start "S1" 0

/-- Witness for C8: a concrete valid raw event is normalized verbatim, and
a concrete out-of-range event leaves a concrete aggregate unchanged. -/
theorem normalize_validation_boundary_witness :
    Engine.normalize ⟨"S1", "P1", "happy", some 90, 5⟩
        = .ok ⟨"S1", "P1", .happy, 90, 5⟩ ∧
      (Engine.ingest c8agg c8bad).1 = c8agg :=
  ⟨normalize_validation_boundary.2.2.1 ⟨"S1", "P1", "happy", some 90, 5⟩ .happy 90
      rfl rfl (by norm_num) (by norm_num) (by decide) (by decide),
   normalize_validation_boundary.2.2.2 c8agg c8bad .badConfidence
      (by simp [c8bad, Engine.normalize, Engine.parseEmotion]; norm_num)⟩
